import Mathlib

/-
Verification development for the aura static-analysis engine.

Shallow embedding of:
  src/aura/analyzers/python/nodes.py   (Taints, AST node model, Call signature binding)
  src/aura/analyzers/python/crypto.py  (CryptoGenKey analyzer)
  src/aura/analyzers/archive.py        (archive safety layer)

The call-argument binding facility is the Python standard library
`inspect.Signature.bind`; it is embedded faithfully from CPython's
`Signature._bind` restricted to the parameter kinds that
`Call.get_signature` can construct (POSITIONAL_ONLY, POSITIONAL_OR_KEYWORD
with a default, VAR_KEYWORD); `Call.get_signature` never constructs
VAR_POSITIONAL or KEYWORD_ONLY parameters.

Helpers whose source lives outside the provided src/ subset
(config.get_score_or_default, config.get_maximum_archive_size,
ScanLocation.create_child, utils.normalize_path, the Rule class default
severity) are modelled from the spec and are marked as such in their doc
comments.
-/

namespace Aura

/-
Python object / AST node universe (nodes.py).

`vInt`, `vStr`, `vNone` are raw Python values (the BASIC_ELEMENTS tuple in
nodes.py is `(str, int)`); the remaining constructors are the dataclass AST
node wrappers used by the claims: Number, String, Dictionary, Attribute,
Import, BinOp and Call.  `callNode`'s `slot` field models the `_full_name`
attribute initialised to None in `ASTNode.__post_init__` and set by the
visitor; `kwargs` holds either a plain keyword mapping (`pymap`) or a
`dictionary` node, as `Call.bind` distinguishes.
-/
mutual
inductive PyObj where
  | vInt (n : Int)
  | vStr (s : String)
  | vNone
  | number (value : Int)
  | strNode (value : String)
  | dictionary (keys : PyList) (values : PyList)
  | attributeNode (source : PyObj) (attr : String) (action : String)
  | importNode (module : String) (al : String)
  | binOp (op : String) (left : PyObj) (right : PyObj)
  | callNode (slot : Option PyObj) (func : PyObj) (args : PyList) (kwargs : PyObj)
  | pymap (m : PyKw)

inductive PyList where
  | nil
  | cons (head : PyObj) (tail : PyList)

inductive PyKw where
  | nil
  | cons (key : String) (value : PyObj) (tail : PyKw)
end

/-- Conversion from the embedded list of Python objects to a Lean list. -/
def PyList.toList : PyList → List PyObj
  | .nil => []
  | .cons x xs => x :: xs.toList

/-- Conversion from a Lean list to the embedded list of Python objects. -/
def pyListOf : List PyObj → PyList
  | [] => .nil
  | x :: xs => .cons x (pyListOf xs)

/-- Conversion from an embedded keyword mapping to a Lean association list. -/
def PyKw.toList : PyKw → List (String × PyObj)
  | .nil => []
  | .cons k v rest => (k, v) :: rest.toList

/-- Conversion from a Lean association list to an embedded keyword mapping. -/
def pyKwOf : List (String × PyObj) → PyKw
  | [] => .nil
  | (k, v) :: rest => .cons k v (pyKwOf rest)

/-
Taints enum (nodes.py lines 20-32).  `Taints.add` is `Taints.__add__`.
-/
inductive Taints where
  | SAFE
  | UNKNOWN
  | TAINTED
  deriving DecidableEq, Repr

/-- Taint combine operator, transcribed from `Taints.__add__`. -/
def Taints.add (self other : Taints) : Taints :=
  if self = .TAINTED ∨ other = .TAINTED then .TAINTED
  else if self = .UNKNOWN ∨ other = .UNKNOWN then .UNKNOWN
  else self

/-
`is_static` (nodes.py).  The base `ASTNode.is_static` property returns
False for every node; only `Dictionary.is_static` (keys and values that are
BASIC_ELEMENTS, i.e. raw str/int, are skipped, other children defer to
their own `is_static`) and `BinOp.is_static` (both operands static)
override it.  `Number` and `String` do not override `is_static`.
-/
mutual
def isStaticObj : PyObj → Bool
  | .dictionary ks vs => isStaticElems ks && isStaticElems vs
  | .binOp _ l r => isStaticObj l && isStaticObj r
  | _ => false

def isStaticElems : PyList → Bool
  | .nil => true
  | .cons (.vInt _) xs => isStaticElems xs
  | .cons (.vStr _) xs => isStaticElems xs
  | .cons x xs => isStaticObj x && isStaticElems xs
end

/-- Test used by `Attribute.full_name` for `isinstance(self.source, Import)`. -/
def isImportNode : PyObj → Bool
  | .importNode _ _ => true
  | _ => false

/-- Test for the Python value None. -/
def isVNone : PyObj → Bool
  | .vNone => true
  | _ => false

/-- Embeds `Attribute.full_name` (nodes.py lines 193-197): the dotted path
when the source is an Import node, Python None otherwise. -/
def attribute_full_name (source : PyObj) (attr : String) : PyObj :=
  match source with
  | .importNode module _ => .vStr (module ++ "." ++ attr)
  | _ => .vNone

/-- Embeds `getattr(x, "full_name", None)` over the modelled node variants:
`some v` when the object has a `full_name` property with value `v` (where
`v` may be the Python None), `none` when the attribute is missing (raw
values).  `Call.full_name` (nodes.py lines 315-324) is inlined in the
`callNode` case: the `_full_name` slot if set to a non-None value, else the
`full_name` of the callee if present and non-None, else the callee itself. -/
def full_name_prop : PyObj → Option PyObj
  | .attributeNode s a _ => some (attribute_full_name s a)
  | .importNode m _ => some (.vStr m)
  | .callNode slot func _ _ =>
      let slotv := slot.getD .vNone
      some (if isVNone slotv then
              let f := (full_name_prop func).getD .vNone
              if isVNone f then func else f
            else slotv)
  | _ => none

/-
Signature binder: CPython `inspect.Signature._bind` (with partial=False),
restricted to the parameter kinds `Call.get_signature` can produce.
-/
inductive ParamKind where
  | posOnly
  | posOrKw
  | varKw
  deriving DecidableEq, Repr

/-- An `inspect.Parameter`: name, kind, and default (`none` is `Parameter.empty`). -/
structure Param where
  name : String
  kind : ParamKind
  default : Option PyObj

/-- Embeds `Call.get_signature` (nodes.py lines 338-361): positional-only
parameters for `sig_args`, positional-or-keyword parameters with defaults
for `sig_kwargs`, then a var-keyword parameter when `aura_capture_kwargs`
is given.  (`aura_capture_args` is accepted by the source but unused.) -/
def get_signature (sig_args : List String) (sig_kwargs : List (String × PyObj))
    (aura_capture_kwargs : Option String) : List Param :=
  (sig_args.map fun x => ⟨x, .posOnly, none⟩)
    ++ (sig_kwargs.map fun kv => ⟨kv.1, .posOrKw, some kv.2⟩)
    ++ (match aura_capture_kwargs with
        | some n => [⟨n, .varKw, none⟩]
        | none => [])

/-- Membership test in a keyword-argument dictionary (`param.name in kwargs`). -/
def kwHas (kw : List (String × PyObj)) (n : String) : Bool :=
  kw.any fun p => p.1 == n

/-- Embeds `kwargs.pop(name)`: the value and the remaining mapping, or `none`. -/
def kwPop : List (String × PyObj) → String → Option (PyObj × List (String × PyObj))
  | [], _ => none
  | (k, v) :: rest, n =>
      if k == n then some (v, rest)
      else
        match kwPop rest n with
        | none => none
        | some (v2, rest2) => some (v2, (k, v) :: rest2)

/-- Assoc-list lookup used for `BoundArguments.arguments[name]`. -/
def lookupArg (arguments : List (String × PyObj)) (n : String) : Option PyObj :=
  (arguments.find? fun p => p.1 == n).map fun p => p.2

/-- Positional phase of CPython `Signature._bind`: walks positional argument
values against parameters in order.  Returns the arguments bound so far and
the remaining parameters (CPython's `parameters_ex` chained with the
unconsumed parameter iterator) for the keyword phase.  Transcribed case by
case from the `while True` loop of `Signature._bind`, for the kinds
posOnly/posOrKw/varKw (VAR_POSITIONAL and KEYWORD_ONLY never occur in
signatures built by `Call.get_signature`). -/
def bindPositional : List PyObj → List Param → List (String × PyObj) →
    List (String × PyObj) → Except String (List (String × PyObj) × List Param)
  | [], [], _, arguments => .ok (arguments, [])
  | [], p :: rest, kwargs, arguments =>
      if kwHas kwargs p.name then
        if p.kind = .posOnly then
          .error (p.name ++ " parameter is positional only, but was passed as a keyword")
        else .ok (arguments, p :: rest)
      else if p.kind = .varKw ∨ p.default.isSome then .ok (arguments, p :: rest)
      else .error ("missing a required argument: " ++ p.name)
  | _ :: _, [], _, _ => .error "too many positional arguments"
  | a :: as, p :: rest, kwargs, arguments =>
      if p.kind = .varKw then .error "too many positional arguments"
      else if kwHas kwargs p.name ∧ p.kind ≠ .posOnly then
        .error ("multiple values for argument " ++ p.name)
      else bindPositional as rest kwargs (arguments ++ [(p.name, a)])

/-- Keyword phase of CPython `Signature._bind`: walks the remaining
parameters, popping keyword arguments by name; a var-keyword parameter is
memorised and captures any leftover keyword arguments at the end. -/
def bindKeyword : List Param → List (String × PyObj) → List (String × PyObj) →
    Option String → Except String (List (String × PyObj))
  | [], kwargs, arguments, kwParamName =>
      match kwargs with
      | [] => .ok arguments
      | (k, _) :: _ =>
          match kwParamName with
          | some n => .ok (arguments ++ [(n, .pymap (pyKwOf kwargs))])
          | none => .error ("got an unexpected keyword argument " ++ k)
  | p :: rest, kwargs, arguments, kwParamName =>
      if p.kind = .varKw then bindKeyword rest kwargs arguments (some p.name)
      else
        match kwPop kwargs p.name with
        | none =>
            if p.default.isNone then .error ("missing a required argument: " ++ p.name)
            else bindKeyword rest kwargs arguments kwParamName
        | some (v, kwargs2) =>
            if p.kind = .posOnly then
              .error (p.name ++ " parameter is positional only, but was passed as a keyword")
            else bindKeyword rest kwargs2 (arguments ++ [(p.name, v)]) kwParamName

/-- Full `Signature._bind`: positional phase then keyword phase; yields the
ordered `BoundArguments.arguments` mapping or the TypeError message. -/
def signatureBind (params : List Param) (args : List PyObj)
    (kwargs : List (String × PyObj)) : Except String (List (String × PyObj)) :=
  match bindPositional args params kwargs [] with
  | .error e => .error e
  | .ok (arguments, remaining) => bindKeyword remaining kwargs arguments none

/-- Embeds the `BoundArguments.args` property: positional parameter values in
declaration order, stopping at the first unbound parameter or at a
var-keyword parameter. -/
def bound_args (params : List Param) (arguments : List (String × PyObj)) : List PyObj :=
  match params with
  | [] => []
  | p :: rest =>
      if p.kind = .varKw then []
      else
        match lookupArg arguments p.name with
        | none => []
        | some v => v :: bound_args rest arguments

/-
Structural equality on embedded Python objects, mirroring dataclass
`__eq__` (field-wise) and value equality on raw values; used by the
dictionary-key semantics of `dict(zip(keys, values))`.
-/
mutual
def pyBeq : PyObj → PyObj → Bool
  | .vInt a, .vInt b => a == b
  | .vStr a, .vStr b => a == b
  | .vNone, .vNone => true
  | .number a, .number b => a == b
  | .strNode a, .strNode b => a == b
  | .dictionary k1 v1, .dictionary k2 v2 => pyListBeq k1 k2 && pyListBeq v1 v2
  | .attributeNode s1 a1 c1, .attributeNode s2 a2 c2 => pyBeq s1 s2 && a1 == a2 && c1 == c2
  | .importNode m1 a1, .importNode m2 a2 => m1 == m2 && a1 == a2
  | .binOp o1 l1 r1, .binOp o2 l2 r2 => o1 == o2 && pyBeq l1 l2 && pyBeq r1 r2
  | .callNode s1 f1 a1 k1, .callNode s2 f2 a2 k2 =>
      (match s1, s2 with
       | none, none => true
       | some x, some y => pyBeq x y
       | _, _ => false) && pyBeq f1 f2 && pyListBeq a1 a2 && pyBeq k1 k2
  | .pymap m1, .pymap m2 => pyKwBeq m1 m2
  | _, _ => false

def pyListBeq : PyList → PyList → Bool
  | .nil, .nil => true
  | .cons x xs, .cons y ys => pyBeq x y && pyListBeq xs ys
  | _, _ => false

def pyKwBeq : PyKw → PyKw → Bool
  | .nil, .nil => true
  | .cons k1 v1 r1, .cons k2 v2 r2 => k1 == k2 && pyBeq v1 v2 && pyKwBeq r1 r2
  | _, _ => false
end

/-- Python `d[k] = v` on an ordered mapping: replaces the value at an
existing equal key (keeping its position), otherwise appends. -/
def dictSet : List (PyObj × PyObj) → PyObj → PyObj → List (PyObj × PyObj)
  | [], k, v => [(k, v)]
  | (k0, v0) :: rest, k, v =>
      if pyBeq k0 k then (k0, v) :: rest else (k0, v0) :: dictSet rest k v

/-- Embeds `Dictionary.to_dict`, i.e. `dict(zip(self.keys, self.values))`:
pairs up keys and values (zip truncates to the shorter list) with
last-value-wins duplicate-key semantics. -/
def to_dict (keys values : PyList) : List (PyObj × PyObj) :=
  (List.zip keys.toList values.toList).foldl (fun d kv => dictSet d kv.1 kv.2) []

/-- Embeds the `**` unpacking of a dict into keyword arguments: every key
must be a Python str, otherwise a TypeError is raised. -/
def kwargsOfDict : List (PyObj × PyObj) → Except String (List (String × PyObj))
  | [] => .ok []
  | (.vStr k, v) :: rest =>
      match kwargsOfDict rest with
      | .ok r => .ok ((k, v) :: r)
      | .error e => .error e
  | _ => .error "keywords must be strings"

/-- Embeds the keyword-collection step of `Call.bind` (nodes.py lines
378-384): a Dictionary node is first materialised via `to_dict`, a plain
mapping is used as is, and anything else fails the `**` unpacking. -/
def materializeKwargs : PyObj → Except String (List (String × PyObj))
  | .dictionary ks vs => kwargsOfDict (to_dict ks vs)
  | .pymap m => .ok m.toList
  | _ => .error "argument after ** must be a mapping"

/-- Embeds `Call.bind`: materialise the keyword collection, then run the
signature binding against the call's positional arguments. -/
def call_bind (args : PyList) (kwargs : PyObj) (params : List Param) :
    Except String (List (String × PyObj)) :=
  match materializeKwargs kwargs with
  | .error e => .error e
  | .ok kw => signatureBind params args.toList kw

/-- Embeds `Call.apply_signature`: build the signature with
`Call.get_signature` and bind the call against it; on success the result
carries the parameter list so that `BoundArguments.args` can be read. -/
def apply_signature (args : PyList) (kwargs : PyObj) (sig_args : List String)
    (sig_kwargs : List (String × PyObj)) (aura_capture_kwargs : Option String) :
    Except String (List Param × List (String × PyObj)) :=
  let params := get_signature sig_args sig_kwargs aura_capture_kwargs
  match call_bind args kwargs params with
  | .error e => .error e
  | .ok arguments => .ok (params, arguments)

/-
Finding / Rule records.  `score = none` models a Rule constructed without a
`score` argument, which therefore carries the Rule class default severity
(defined in analyzers/rules.py, outside the provided src/ subset).
-/
inductive ExtraVal where
  | s (v : String)
  | i (v : Int)
  | nil
  deriving DecidableEq, Repr

/-- A detection hit: Rule / SuspiciousArchiveEntry / ArchiveAnomaly /
CryptoKeyGeneration instance, restricted to the fields the claims observe. -/
structure Finding where
  location : Option String
  message : Option String
  signature : String
  score : Option Nat
  extra : List (String × ExtraVal)
  deriving DecidableEq, Repr

/-- Lookup of a field in a Finding's `extra` mapping. -/
def extraLookup (f : Finding) (k : String) : Option ExtraVal :=
  (f.extra.find? fun p => p.1 == k).map fun p => p.2

/-- Modelled from the spec: external configuration state backing the two
lookups of §6, `maximum_archive_size() -> integer|none` and
`score_or_default(rule_name, default) -> integer` (config helpers used by
archive.py whose definitions are outside the provided src/ subset). -/
structure Config where
  maximum_archive_size : Option Nat
  scores : String → Option Nat

/-- Modelled from the spec: `score_or_default(rule_name, default)` (§6), a
side-effect-free read returning the configured score for the rule name or
the given default. -/
def get_score_or_default (cfg : Config) (name : String) (default : Nat) : Nat :=
  (cfg.scores name).getD default

/-- Modelled from the spec: `maximum_archive_size()` (§6), a side-effect-free
read returning the configured maximum or a "no limit" sentinel. -/
def get_maximum_archive_size (cfg : Config) : Option Nat :=
  cfg.maximum_archive_size

/-- Modelled from the spec: the Rule class default severity (the `score`
carried by a Finding constructed without a `score` argument; the Rule
dataclass lives in analyzers/rules.py, outside the provided src/ subset).
Spec §4.4 gives "severity default 10 for the general case" of the oversized
entry Finding, which is constructed without a `score` argument. -/
def defaultRuleScore : Nat := 10

/-- Severity a Finding reports: its explicit score, or the Rule class
default when none was passed at construction. -/
def effective_score (f : Finding) : Nat :=
  f.score.getD defaultRuleScore

/-
CryptoGenKey analyzer (crypto.py).
-/

/-- Catalogue value of CRYPTO_GEN_KEYS: key family tag and source library. -/
structure KeyTarget where
  ktype : String
  lib : String
  deriving DecidableEq, Repr

/-- Embeds the CRYPTO_GEN_KEYS catalogue (crypto.py lines 12-38). -/
def CRYPTO_GEN_KEYS : List (String × KeyTarget) :=
  [ ("cryptography.hazmat.primitives.asymmetric.dsa.generate_private_key", ⟨"dsa", "cryptography"⟩),
    ("cryptography.hazmat.primitives.asymmetric.dsa.generate_parameters", ⟨"dsa", "cryptography"⟩),
    ("cryptography.hazmat.primitives.asymmetric.rsa.generate_private_key", ⟨"rsa", "cryptography"⟩),
    ("cryptography.hazmat.primitives.asymmetric.rsa.generate_parameters", ⟨"rsa", "cryptography"⟩),
    ("Crypto.PublicKey.DSA.generate", ⟨"dsa", "crypto"⟩),
    ("Crypto.PublicKey.RSA.generate", ⟨"rsa", "crypto"⟩),
    ("Cryptodome.PublicKey.DSA.generate", ⟨"dsa", "crypto"⟩),
    ("Cryptodome.PublicKey.RSA.generate", ⟨"rsa", "crypto"⟩) ]

/-- Embeds MIN_KEY_SIZES (crypto.py lines 41-44). -/
def MIN_KEY_SIZES : List (String × Int) :=
  [("rsa", 2048), ("dsa", 2048)]

/-- Embeds `MIN_KEY_SIZES.get(info["type"], 0)`. -/
def minKeySize (ktype : String) : Int :=
  ((MIN_KEY_SIZES.find? fun p => p.1 == ktype).map fun p => p.2).getD 0

/-- Embeds `CryptoGenKey._gen_hit` (crypto.py lines 99-113): a
CryptoKeyGeneration hit with function name, key family and key size in
`extra`; the score is elevated to 100 when a key size below the per-family
minimum was resolved, and is otherwise left at the Rule class default. -/
def gen_hit (path : String) (line_no : Int) (full_name : String)
    (info : KeyTarget) (key_size : Option Int) : Finding :=
  { location := none,
    message := some "Generation of cryptography key detected",
    signature := "crypto#gen_key#" ++ path ++ "#" ++ toString line_no,
    score :=
      match key_size with
      | some ks => if ks < minKeySize info.ktype then some 100 else none
      | none => none,
    extra :=
      [ ("function", .s full_name),
        ("key_type", .s info.ktype),
        ("key_size", match key_size with | some ks => .i ks | none => .nil) ] }

/-- Embeds `CryptoGenKey._lib_cryptography` (crypto.py lines 72-83): bind
against the shape `("key_size", backend=None)`; on a TypeError no hit is
produced; the first bound positional value yields the key size when it is a
Number node or a raw int. -/
def lib_cryptography (path : String) (line_no : Int) (full_name : String)
    (args : PyList) (kwargs : PyObj) (info : KeyTarget) : List Finding :=
  match apply_signature args kwargs ["key_size"] [("backend", .vNone)] none with
  | .error _ => []
  | .ok (params, arguments) =>
      match bound_args params arguments with
      | [] => []
      | ksObj :: _ =>
          match ksObj with
          | .number v => [gen_hit path line_no full_name info (some v)]
          | .vInt v => [gen_hit path line_no full_name info (some v)]
          | _ => []

/-- Embeds `CryptoGenKey._lib_crypto` (crypto.py lines 85-97): same logic
against the shape `("bits", randfunc=None, domain=None)`. -/
def lib_crypto (path : String) (line_no : Int) (full_name : String)
    (args : PyList) (kwargs : PyObj) (info : KeyTarget) : List Finding :=
  match apply_signature args kwargs ["bits"] [("randfunc", .vNone), ("domain", .vNone)] none with
  | .error _ => []
  | .ok (params, arguments) =>
      match bound_args params arguments with
      | [] => []
      | ksObj :: _ =>
          match ksObj with
          | .number v => [gen_hit path line_no full_name info (some v)]
          | .vInt v => [gen_hit path line_no full_name info (some v)]
          | _ => []

/-- Embeds `CryptoGenKey.node_Call` (crypto.py lines 61-70): the node's
resolved `full_name` must be a str found in CRYPTO_GEN_KEYS; the catalogue
entry's `lib` tag dispatches to the library-specific handler. -/
def node_Call (path : String) (line_no : Int) (node : PyObj) : List Finding :=
  match node with
  | .callNode slot func args kwargs =>
      match (full_name_prop (.callNode slot func args kwargs)).getD .vNone with
      | .vStr f_name =>
          match CRYPTO_GEN_KEYS.find? fun e => e.1 == f_name with
          | some entry =>
              if entry.2.lib == "cryptography" then
                lib_cryptography path line_no f_name args kwargs entry.2
              else if entry.2.lib == "crypto" then
                lib_crypto path line_no f_name args kwargs entry.2
              else []
          | none => []
      | _ => []
  | _ => []

/-
Archive safety layer (archive.py).
-/

/-- Modelled from the spec: `utils.normalize_path` (utils.py, outside the
provided src/ subset).  The spec constrains it only to produce the entry
path embedded in signatures and extra fields; none of the claims depend on
its value, and it is modelled as the identity. -/
def normalize_path (p : String) : String := p

/-- Embeds `pth.startswith("/")`: the string's first character is the
path separator. -/
def startswith_root (pth : String) : Bool :=
  match pth.data with
  | [] => false
  | c :: _ => c == '/'

/-- Splits a character list at the path separator, accumulating the current
segment; helper for `pathSegments`. -/
def segsAux : List Char → List Char → List String
  | [], acc => [String.mk acc.reverse]
  | c :: rest, acc =>
      if c == '/' then String.mk acc.reverse :: segsAux rest []
      else segsAux rest (c :: acc)

/-- The "/"-separated segments of a path string. -/
def pathSegments (p : String) : List String :=
  segsAux p.data []

/-- Embeds the check `any(x == ".." for x in Path(pth).parts)` from
`is_suspicious`.  `PurePosixPath.parts` splits on "/", drops empty and "."
segments and prepends a root marker for absolute paths; a ".." segment
survives this normalisation unchanged and neither the root marker nor any
other produced part can equal "..", so membership of ".." in `parts` is
exactly membership of ".." among the "/"-separated segments. -/
def hasParentReference (pth : String) : Bool :=
  (pathSegments pth).contains ".."

/-- Embeds `is_suspicious` (archive.py lines 53-72): an absolute entry path
gives an absolute_path SuspiciousArchiveEntry, otherwise a ".." component
gives a parent_reference one, otherwise None. -/
def is_suspicious (cfg : Config) (pth : String) (location : String) : Option Finding :=
  if startswith_root pth then
    some
      { location := some (normalize_path location),
        message := none,
        signature := "suspicious_archive_entry#absolute_path#" ++ normalize_path pth ++ "#" ++ location,
        score := some (get_score_or_default cfg "suspicious-archive-entry-absolute-path" 50),
        extra := [("entry_type", .s "absolute_path"), ("entry_path", .s (normalize_path pth))] }
  else if hasParentReference pth then
    some
      { location := some (normalize_path location),
        message := none,
        signature := "suspicious_archive_entry#parent_reference#" ++ normalize_path pth ++ "#" ++ location,
        score := some (get_score_or_default cfg "suspicious-archive-entry-parent-reference" 50),
        extra := [("entry_type", .s "parent_reference"), ("entry_path", .s (normalize_path pth))] }
  else none

/-- A `zipfile.ZipInfo` restricted to the fields archive.py reads. -/
structure ZipInfo where
  filename : String
  file_size : Nat
  deriving DecidableEq, Repr

/-- Entry kind of a `tarfile.TarInfo`, as discriminated by
`member.isdir()` / `member.issym()` / `member.islnk()` / `member.isfile()`. -/
inductive TarKind where
  | regular
  | directory
  | symlink
  | hardlink
  | other
  deriving DecidableEq, Repr

/-- A `tarfile.TarInfo` restricted to the fields archive.py reads. -/
structure TarInfo where
  name : String
  size : Nat
  kind : TarKind
  deriving DecidableEq, Repr

/-- The oversized-entry ArchiveAnomaly of `filter_zip` (archive.py lines
89-99): constructed without a `score` argument, so it carries the Rule
class default severity. -/
def zip_oversized (path : String) (x : ZipInfo) (limit : Nat) : Finding :=
  { location := some path,
    message := some "Archive contain a file that exceed the configured maximum size",
    signature := "archive_anomaly#size#" ++ path ++ "#" ++ x.filename,
    score := none,
    extra :=
      [ ("archive_path", .s x.filename),
        ("reason", .s "file_size_exceeded"),
        ("size", .i x.file_size),
        ("limit", .i limit) ] }

/-- The oversized-entry ArchiveAnomaly of `filter_tar` (archive.py lines
125-136): unlike the zip one it sets an explicit score,
`get_score_or_default("archive-file-size-exceeded", 100)`. -/
def tar_oversized (cfg : Config) (path : String) (m : TarInfo) (limit : Nat) : Finding :=
  { location := some path,
    message := some "Archive contain a file that exceed the configured maximum size",
    signature := "archive_anomaly#size#" ++ path ++ "#" ++ m.name,
    score := some (get_score_or_default cfg "archive-file-size-exceeded" 100),
    extra :=
      [ ("archive_path", .s m.name),
        ("reason", .s "file_size_exceeded"),
        ("size", .i m.size),
        ("limit", .i limit) ] }

/-- Output items of `filter_zip`: an approved ZipInfo or an anomaly hit. -/
inductive ZipOut where
  | entry (z : ZipInfo)
  | hit (f : Finding)
  deriving DecidableEq, Repr

/-- Output items of `filter_tar`: an approved TarInfo or an anomaly hit. -/
inductive TarOut where
  | member (m : TarInfo)
  | hit (f : Finding)
  deriving DecidableEq, Repr

/-- Embeds `filter_zip` (archive.py lines 75-102): when no per-call
`max_size` is given, the configured maximum is used; suspicious entries
yield their hit, entries larger than the (non-None) maximum yield an
oversized anomaly, everything else is approved. -/
def filter_zip (cfg : Config) (entries : List ZipInfo) (path : String)
    (max_size : Option Nat) : List ZipOut :=
  let ms : Option Nat :=
    match max_size with
    | none => get_maximum_archive_size cfg
    | some m => some m
  entries.map fun x =>
    match is_suspicious cfg x.filename path with
    | some res => .hit res
    | none =>
        match ms with
        | some m => if x.file_size > m then .hit (zip_oversized path x m) else .entry x
        | none => .entry x

/-- Embeds `filter_tar` (archive.py lines 105-142).  Note the source bug at
line 109: when `max_size` is None the call
`config.get_maximum_archive_size()` is evaluated but its result is
discarded (never assigned), so the size check below keeps comparing against
the unchanged `max_size` parameter.  Suspicious members yield their hit,
directories are approved, symlinks and hardlinks are silently skipped,
regular files are size-checked (only when the `max_size` parameter itself
is not None) and approved otherwise, any other member kind is skipped. -/
def filter_tar (cfg : Config) (members : List TarInfo) (path : String)
    (max_size : Option Nat) : List TarOut :=
  let _ := get_maximum_archive_size cfg
  members.filterMap fun member =>
    match is_suspicious cfg member.name path with
    | some res => some (.hit res)
    | none =>
        match member.kind with
        | .directory => some (.member member)
        | .symlink => none
        | .hardlink => none
        | .regular =>
            match max_size with
            | some m =>
                if member.size > m then some (.hit (tar_oversized cfg path member m))
                else some (.member member)
            | none => some (.member member)
        | .other => none

/-- A Scan Location restricted to what archive.py observes: the path, its
directory-ness, the detected content-type from `metadata["mime"]`, the
`cleanup` flag and the parent back-reference. -/
structure ScanLocation where
  location : String
  is_dir : Bool
  mime : String
  cleanup : Bool
  parent : Option String
  deriving DecidableEq, Repr

/-- Modelled from the spec: `ScanLocation.create_child`
(uri_handlers/base.py, outside the provided src/ subset).  Per §3 it
produces a location at the new path, derives metadata from the parent and
records the parent relation; `cleanup` marks ownership of the temporary
directory. -/
def create_child (loc : ScanLocation) (new_location : String) (cleanup : Bool) : ScanLocation :=
  { location := new_location,
    is_dir := false,
    mime := loc.mime,
    cleanup := cleanup,
    parent := some loc.location }

/-- Observable events of archive processing, in generator order: a yielded
child Scan Location, a yielded Finding, or the extraction of an approved
entry into the temporary directory (`fd.extract`, a side effect of the
loops in `process_zipfile` / `process_tarfile`). -/
inductive ScanEvent where
  | child (loc : ScanLocation)
  | hit (f : Finding)
  | extracted (name : String)
  deriving DecidableEq, Repr

/-- Embeds `process_zipfile` (archive.py lines 145-151): iterates
`filter_zip` with the default (None) `max_size`, extracting approved
entries and yielding anomaly hits, in archive order. -/
def process_zipfile (cfg : Config) (entries : List ZipInfo) (path : String) : List ScanEvent :=
  (filter_zip cfg entries path none).map fun x =>
    match x with
    | .entry z => .extracted z.filename
    | .hit f => .hit f

/-- Embeds `process_tarfile` (archive.py lines 154-160): iterates
`filter_tar` with the default (None) `max_size`, extracting approved
members (with `set_attrs=False`) and yielding anomaly hits, in archive
order. -/
def process_tarfile (cfg : Config) (members : List TarInfo) (path : String) : List ScanEvent :=
  (filter_tar cfg members path none).map fun x =>
    match x with
    | .member m => .extracted m.name
    | .hit f => .hit f

/-- Embeds SUPPORTED_MIME (archive.py lines 18-23). -/
def SUPPORTED_MIME : List String :=
  ["application/x-gzip", "application/gzip", "application/x-bzip2", "application/zip"]

/-- The exception classes caught at the archive-open boundary
(`tarfile.ReadError`, `zipfile.BadZipFile`). -/
inductive ArcExcType where
  | readError
  | badZipFile
  deriving DecidableEq, Repr

/-- Class name of a caught archive exception (`exc.__class__.__name__`). -/
def ArcExcType.className : ArcExcType → String
  | .readError => "ReadError"
  | .badZipFile => "BadZipFile"

/-- A caught archive-open exception: class and message (`exc.args[0]`). -/
structure ArcExc where
  etype : ArcExcType
  message : String
  deriving DecidableEq, Repr

/-- Embeds `ArchiveAnomaly.from_generic_exception` (archive.py lines
37-50). -/
def from_generic_exception (cfg : Config) (loc : ScanLocation) (exc : ArcExc) : Finding :=
  { location := some loc.location,
    message := some "Could not open the archive for analysis",
    signature := "archive_anomaly#read_error#" ++ loc.location,
    score := some (get_score_or_default cfg "corrupted-archive" 10),
    extra :=
      [ ("reason", .s "archive_read_error"),
        ("exc_message", .s exc.message),
        ("exc_type", .s exc.etype.className),
        ("mime", .s loc.mime) ] }

/-- Embeds `archive_analyzer` (archive.py lines 163-190).  Directories and
unsupported content-types yield nothing; otherwise the child Scan Location
at the fresh temporary directory is yielded first, then the zip or tar
processing runs inside the try block whose `(tarfile.ReadError,
zipfile.BadZipFile)` handler turns an archive-open failure into a single
read-error Finding.  The result of opening the container is passed in as
`open_zip` / `open_tar`: `Except.error` models the open raising one of the
caught exception classes. -/
def archive_analyzer (cfg : Config) (loc : ScanLocation)
    (open_zip : Except ArcExc (List ZipInfo)) (open_tar : Except ArcExc (List TarInfo))
    (tmp_dir : String) : List ScanEvent :=
  if loc.is_dir then []
  else if ¬ (SUPPORTED_MIME.contains loc.mime) then []
  else
    ScanEvent.child (create_child loc tmp_dir true) ::
      (if loc.mime == "application/zip" then
        match open_zip with
        | .ok entries => process_zipfile cfg entries loc.location
        | .error exc => [.hit (from_generic_exception cfg loc exc)]
      else
        match open_tar with
        | .ok members => process_tarfile cfg members loc.location
        | .error exc => [.hit (from_generic_exception cfg loc exc)])

/-
Theorems.
-/

/-- C4: the taint combine operator over {SAFE, UNKNOWN, TAINTED} is
associative and commutative, TAINTED is absorbing, UNKNOWN absorbs SAFE,
and combining SAFE with SAFE gives SAFE. -/
theorem taints_combine_lattice :
    (∀ a b c : Taints, Taints.add (Taints.add a b) c = Taints.add a (Taints.add b c))
  ∧ (∀ a b : Taints, Taints.add a b = Taints.add b a)
  ∧ (∀ x : Taints, Taints.add .TAINTED x = .TAINTED)
  ∧ Taints.add .UNKNOWN .SAFE = .UNKNOWN
  ∧ Taints.add .SAFE .UNKNOWN = .UNKNOWN
  ∧ Taints.add .SAFE .SAFE = .SAFE := by
  refine ⟨?_, ?_, ?_, rfl, rfl, rfl⟩
  · intro a b c
    cases a <;> cases b <;> cases c <;> rfl
  · intro a b
    cases a <;> cases b <;> rfl
  · intro x
    cases x <;> rfl

/-- C9 (code evaluated at the failing input): the claim asserts every
literal Number node has is_static true, but `Number` never overrides the
base `ASTNode.is_static`, which returns False for every node (the base
docstring nevertheless names "numbers, strings" as static examples); a
String literal node behaves the same way. -/
theorem number_node_is_static_false :
    isStaticObj (.number 1) = false ∧ isStaticObj (.strNode "x") = false :=
  ⟨rfl, rfl⟩

/-- C2 (code evaluated at the failing input): with the global configured
maximum archive size 5 and no per-call override, the tar path extracts a
regular member of declared size 10 and yields no Finding — `filter_tar`
evaluates `config.get_maximum_archive_size()` but discards the result
(archive.py line 109) — while the zip path on the same configuration flags
the same entry as oversized and does not extract it. -/
theorem tar_default_size_limit_ignored :
    process_tarfile ⟨some 5, fun _ => none⟩ [⟨"data.txt", 10, .regular⟩] "pkg.tar"
        = [.extracted "data.txt"]
  ∧ process_zipfile ⟨some 5, fun _ => none⟩ [⟨"data.txt", 10⟩] "pkg.zip"
        = [.hit (zip_oversized "pkg.zip" ⟨"data.txt", 10⟩ 5)] := by
  constructor <;> decide

/-- C10: an Attribute node whose source is not an Import node resolves
full_name to Python None, and the crypto node_Call handler emits no
Finding for a Call node whose `_full_name` slot is unset and whose callee
is such an Attribute (the call's full_name then falls back to the Attribute
object itself, which is not a str). -/
theorem attribute_nonimport_full_name_none
    (s : PyObj) (a act : String) (hs : isImportNode s = false)
    (path : String) (line_no : Int) (args : PyList) (kwargs : PyObj) :
    attribute_full_name s a = .vNone
  ∧ node_Call path line_no (.callNode none (.attributeNode s a act) args kwargs) = [] := by
  have h1 : attribute_full_name s a = .vNone := by
    cases s <;> simp_all [attribute_full_name, isImportNode]
  refine ⟨h1, ?_⟩
  simp [node_Call, full_name_prop, h1, isVNone]

/-- C10 witness: a two-level attribute chain (callee `os.path.join` parsed
as Attribute(Attribute(Import os, path), join)) resolves to None and
produces no crypto Finding. -/
theorem attribute_nonimport_full_name_none_witness :
    isImportNode (.attributeNode (.importNode "os" "os") "path" "load") = false
  ∧ (attribute_full_name (.attributeNode (.importNode "os" "os") "path" "load") "join" = .vNone
      ∧ node_Call "pkg.py" 1 (.callNode none
          (.attributeNode (.attributeNode (.importNode "os" "os") "path" "load") "join" "load")
          .nil (.pymap .nil)) = []) :=
  ⟨rfl, attribute_nonimport_full_name_none
    (.attributeNode (.importNode "os" "os") "path" "load") "join" "load" rfl
    "pkg.py" 1 .nil (.pymap .nil)⟩

/-- Helper: every name extracted by the zip processing path belongs to an
entry that `is_suspicious` classified as clean. -/
theorem zip_extracted_not_suspicious (cfg : Config) (entries : List ZipInfo)
    (path nm : String) (h : ScanEvent.extracted nm ∈ process_zipfile cfg entries path) :
    is_suspicious cfg nm path = none := by
  simp only [process_zipfile, filter_zip, List.mem_map] at h
  obtain ⟨out, ⟨x, hx, hstep⟩, hgo⟩ := h
  cases out with
  | hit f => simp at hgo
  | entry z =>
      have hz : z.filename = nm := by simpa using hgo
      cases hsus : is_suspicious cfg x.filename path with
      | some f =>
          rw [hsus] at hstep
          simp at hstep
      | none =>
          rw [hsus] at hstep
          have hxz : x = z := by
            cases hms : get_maximum_archive_size cfg with
            | none =>
                rw [hms] at hstep
                simpa using hstep
            | some m =>
                rw [hms] at hstep
                by_cases hsz : x.file_size > m
                · simp [hsz] at hstep
                · simpa [hsz] using hstep
          rw [← hz, ← hxz]
          exact hsus

/-- Helper: every name extracted by the tar processing path belongs to a
member that `is_suspicious` classified as clean. -/
theorem tar_extracted_not_suspicious (cfg : Config) (members : List TarInfo)
    (path nm : String) (h : ScanEvent.extracted nm ∈ process_tarfile cfg members path) :
    is_suspicious cfg nm path = none := by
  simp only [process_tarfile, filter_tar, List.mem_map, List.mem_filterMap] at h
  obtain ⟨out, ⟨m, hm, hstep⟩, hgo⟩ := h
  cases out with
  | hit f => simp at hgo
  | member z =>
      have hz : z.name = nm := by simpa using hgo
      cases hsus : is_suspicious cfg m.name path with
      | some f =>
          rw [hsus] at hstep
          simp at hstep
      | none =>
          rw [hsus] at hstep
          have hmz : m = z := by
            cases hk : m.kind
            all_goals rw [hk] at hstep
            · simpa using hstep
            · simpa using hstep
            · simp at hstep
            · simp at hstep
            · simp at hstep
          rw [← hz, ← hmz]
          exact hsus

/-- C3: an entry path starting at the filesystem root is classified
absolute_path with the default severity 50; otherwise a path with a ".."
component is classified parent_reference with the default severity 50 (the
absolute-path branch is tested first, so it wins when both conditions
hold); and every entry either path extracts — through the zip or the tar
processing path — was classified clean by `is_suspicious`, so classified
entries are never extracted. -/
theorem suspicious_entry_classification
    (cfg : Config) (pth location : String)
    (habs : cfg.scores "suspicious-archive-entry-absolute-path" = none)
    (hpar : cfg.scores "suspicious-archive-entry-parent-reference" = none) :
    (startswith_root pth = true →
       ∃ f, is_suspicious cfg pth location = some f
         ∧ extraLookup f "entry_type" = some (.s "absolute_path")
         ∧ f.score = some 50)
  ∧ (startswith_root pth = false → hasParentReference pth = true →
       ∃ f, is_suspicious cfg pth location = some f
         ∧ extraLookup f "entry_type" = some (.s "parent_reference")
         ∧ f.score = some 50)
  ∧ (∀ entries nm, ScanEvent.extracted nm ∈ process_zipfile cfg entries location →
       is_suspicious cfg nm location = none)
  ∧ (∀ members nm, ScanEvent.extracted nm ∈ process_tarfile cfg members location →
       is_suspicious cfg nm location = none) := by
  refine ⟨?_, ?_, ?_, ?_⟩
  · intro hstart
    simp only [is_suspicious, hstart, if_true]
    refine ⟨_, rfl, rfl, ?_⟩
    simp [get_score_or_default, habs]
  · intro hstart hpp
    simp only [is_suspicious, hstart, hpp, Bool.false_eq_true, if_false, if_true]
    refine ⟨_, rfl, rfl, ?_⟩
    simp [get_score_or_default, hpar]
  · intro entries nm h
    exact zip_extracted_not_suspicious cfg entries location nm h
  · intro members nm h
    exact tar_extracted_not_suspicious cfg members location nm h

/-- C3 witness: on the default configuration, the path "/a/../b" (both
absolute and containing a parent reference) is classified absolute_path
with severity 50, showing the precedence of the absolute-path check. -/
theorem suspicious_entry_classification_witness :
    ∃ f, is_suspicious ⟨none, fun _ => none⟩ "/a/../b" "pkg.zip" = some f
      ∧ extraLookup f "entry_type" = some (.s "absolute_path")
      ∧ f.score = some 50 :=
  (suspicious_entry_classification ⟨none, fun _ => none⟩ "/a/../b" "pkg.zip" rfl rfl).1 rfl

/-- C5: when a non-directory Scan Location with a supported archive
content-type fails to open (a tar ReadError or a zip BadZipFile, on
whichever opener its mime selects), the analyzer yields the child location
followed by exactly one read-error Finding whose extra mapping carries
reason=archive_read_error, the exception class name and message, and the
detected mime; nothing is extracted and no exception escapes. -/
theorem archive_read_error_single_finding
    (cfg : Config) (loc : ScanLocation) (oz : Except ArcExc (List ZipInfo))
    (ot : Except ArcExc (List TarInfo)) (tmp : String) (exc : ArcExc)
    (hdir : loc.is_dir = false)
    (hmime : SUPPORTED_MIME.contains loc.mime = true)
    (hz : loc.mime = "application/zip" → oz = .error exc)
    (ht : loc.mime ≠ "application/zip" → ot = .error exc) :
    archive_analyzer cfg loc oz ot tmp =
      [.child (create_child loc tmp true), .hit (from_generic_exception cfg loc exc)]
  ∧ (from_generic_exception cfg loc exc).extra =
      [ ("reason", .s "archive_read_error"),
        ("exc_message", .s exc.message),
        ("exc_type", .s exc.etype.className),
        ("mime", .s loc.mime) ] := by
  refine ⟨?_, rfl⟩
  rw [archive_analyzer.eq_def]
  simp only [hdir, hmime, Bool.false_eq_true, if_false, not_true, ite_true, ite_false,
    Bool.not_eq_true, decide_True, decide_False]
  by_cases h : loc.mime = "application/zip"
  · rw [hz h]
    simp [h]
  · rw [ht h]
    simp [h]

/-- C5 witness: a corrupt gzip-tar location produces exactly the child
location and the read-error Finding with the documented extra fields. -/
theorem archive_read_error_single_finding_witness :
    archive_analyzer ⟨none, fun _ => none⟩
        ⟨"pkg.tgz", false, "application/gzip", false, none⟩
        (.ok []) (.error ⟨.readError, "truncated header"⟩) "/tmp/aura_x" =
      [ .child (create_child ⟨"pkg.tgz", false, "application/gzip", false, none⟩ "/tmp/aura_x" true),
        .hit (from_generic_exception ⟨none, fun _ => none⟩
          ⟨"pkg.tgz", false, "application/gzip", false, none⟩ ⟨.readError, "truncated header"⟩) ]
  ∧ (from_generic_exception ⟨none, fun _ => none⟩
        ⟨"pkg.tgz", false, "application/gzip", false, none⟩ ⟨.readError, "truncated header"⟩).extra =
      [ ("reason", .s "archive_read_error"),
        ("exc_message", .s "truncated header"),
        ("exc_type", .s "ReadError"),
        ("mime", .s "application/gzip") ] :=
  archive_read_error_single_finding ⟨none, fun _ => none⟩
    ⟨"pkg.tgz", false, "application/gzip", false, none⟩
    (.ok []) (.error ⟨.readError, "truncated header"⟩) "/tmp/aura_x"
    ⟨.readError, "truncated header"⟩ rfl (by decide)
    (fun h => absurd h (by decide)) (fun _ => rfl)

/-- C6: for a non-directory Scan Location with a supported archive
content-type, the analyzer's first yielded item is the child Scan Location
at the fresh temporary directory with cleanup=true — before any extraction
event and any per-entry Finding, and regardless of how opening or
processing the container turns out. -/
theorem archive_child_location_first
    (cfg : Config) (loc : ScanLocation) (oz : Except ArcExc (List ZipInfo))
    (ot : Except ArcExc (List TarInfo)) (tmp : String)
    (hdir : loc.is_dir = false) (hmime : SUPPORTED_MIME.contains loc.mime = true) :
    ∃ rest, archive_analyzer cfg loc oz ot tmp
        = .child (create_child loc tmp true) :: rest
      ∧ (create_child loc tmp true).cleanup = true
      ∧ (create_child loc tmp true).location = tmp := by
  rw [archive_analyzer.eq_def]
  simp only [hdir, hmime, Bool.false_eq_true, if_false, not_true, ite_true, ite_false]
  exact ⟨_, rfl, rfl, rfl⟩

/-- C6 witness: a zip location whose extraction subsequently hits a
suspicious entry still yields the cleanup-owning child location first. -/
theorem archive_child_location_first_witness :
    ∃ rest, archive_analyzer ⟨none, fun _ => none⟩
        ⟨"pkg.zip", false, "application/zip", false, none⟩
        (.ok [⟨"../evil", 1⟩]) (.ok []) "/tmp/aura_y"
        = .child (create_child ⟨"pkg.zip", false, "application/zip", false, none⟩ "/tmp/aura_y" true) :: rest
      ∧ (create_child ⟨"pkg.zip", false, "application/zip", false, none⟩ "/tmp/aura_y" true).cleanup = true
      ∧ (create_child ⟨"pkg.zip", false, "application/zip", false, none⟩ "/tmp/aura_y" true).location = "/tmp/aura_y" :=
  archive_child_location_first ⟨none, fun _ => none⟩
    ⟨"pkg.zip", false, "application/zip", false, none⟩
    (.ok [⟨"../evil", 1⟩]) (.ok []) "/tmp/aura_y" rfl (by decide)

/-- C7: binding a call that supplies `a` positionally and `b` by keyword
against the formal shape `(a, b=default)` built by `Call.get_signature`
succeeds and resolves `b` to the supplied keyword value; when the call's
keyword collection is a Dictionary node it is first materialised into the
ordinary keyword mapping and binds identically. -/
theorem signature_binder_round_trip (x y d : PyObj) :
    call_bind (.cons x .nil) (.pymap (.cons "b" y .nil)) (get_signature ["a"] [("b", d)] none)
        = .ok [("a", x), ("b", y)]
  ∧ call_bind (.cons x .nil) (.dictionary (.cons (.vStr "b") .nil) (.cons y .nil))
        (get_signature ["a"] [("b", d)] none) = .ok [("a", x), ("b", y)]
  ∧ lookupArg [("a", x), ("b", y)] "b" = some y := by
  refine ⟨rfl, rfl, rfl⟩

/-- C8: a zip entry over the per-call limit yields the oversized Finding
constructed without an explicit score, whose effective severity is the Rule
class default 10, while a regular tar member over the per-call limit yields
the tar-specific oversized Finding with explicit severity 100 by default;
the two constants are distinct. -/
theorem oversized_severity_asymmetry
    (cfg : Config) (path : String) (x : ZipInfo) (t : TarInfo) (m : Nat)
    (hscore : cfg.scores "archive-file-size-exceeded" = none)
    (hxs : is_suspicious cfg x.filename path = none)
    (hts : is_suspicious cfg t.name path = none)
    (hkind : t.kind = .regular)
    (hx : x.file_size > m) (ht : t.size > m) :
    filter_zip cfg [x] path (some m) = [.hit (zip_oversized path x m)]
  ∧ effective_score (zip_oversized path x m) = 10
  ∧ filter_tar cfg [t] path (some m) = [.hit (tar_oversized cfg path t m)]
  ∧ (tar_oversized cfg path t m).score = some 100
  ∧ (10 : Nat) ≠ 100 := by
  refine ⟨?_, rfl, ?_, ?_, by decide⟩
  · simp [filter_zip, hxs, hx]
  · simp [filter_tar, hts, hkind, ht]
  · simp [tar_oversized, get_score_or_default, hscore]

/-- C8 witness: a size-10 entry against limit 5 on the default
configuration shows severity 10 on the zip path and 100 on the tar path. -/
theorem oversized_severity_asymmetry_witness :
    filter_zip ⟨none, fun _ => none⟩ [⟨"big.bin", 10⟩] "pkg.arch" (some 5)
        = [.hit (zip_oversized "pkg.arch" ⟨"big.bin", 10⟩ 5)]
  ∧ effective_score (zip_oversized "pkg.arch" ⟨"big.bin", 10⟩ 5) = 10
  ∧ filter_tar ⟨none, fun _ => none⟩ [⟨"big.bin", 10, .regular⟩] "pkg.arch" (some 5)
        = [.hit (tar_oversized ⟨none, fun _ => none⟩ "pkg.arch" ⟨"big.bin", 10, .regular⟩ 5)]
  ∧ (tar_oversized ⟨none, fun _ => none⟩ "pkg.arch" ⟨"big.bin", 10, .regular⟩ 5).score = some 100
  ∧ (10 : Nat) ≠ 100 :=
  oversized_severity_asymmetry ⟨none, fun _ => none⟩ "pkg.arch"
    ⟨"big.bin", 10⟩ ⟨"big.bin", 10, .regular⟩ 5 rfl (by decide) (by decide) rfl
    (by decide) (by decide)

/-- C1 counterexample: a Call resolved to the rsa catalogue entry
`cryptography...rsa.generate_private_key` that supplies the key size as the
keyword argument key_size=1024 produces no Finding at all — `get_signature`
declares `key_size` positional-only, so `Signature.bind` raises a TypeError
that `_lib_cryptography` swallows — contradicting the claimed single
elevated Finding. -/
theorem crypto_keyword_key_size_no_finding :
    node_Call "pkg/setup.py" 3 (.callNode
      (some (.vStr "cryptography.hazmat.primitives.asymmetric.rsa.generate_private_key"))
      (.vStr "generate_private_key") .nil
      (.pymap (.cons "key_size" (.vInt 1024) .nil))) = [] := by
  decide

/-- C1 (amended): for every rsa catalogue entry, a call supplying
key_size=1024 by keyword fails to bind (the declared shape makes the size
parameter positional-only) and emits no Finding, while a call supplying
1024 as its single positional argument emits exactly one Finding with
key_type rsa, key_size 1024 and severity elevated to 100 (1024 < 2048). -/
theorem crypto_rsa_key_size_findings
    (name : String) (t : KeyTarget) (path : String) (line_no : Int)
    (hmem : (name, t) ∈ CRYPTO_GEN_KEYS) (hrsa : t.ktype = "rsa") :
    node_Call path line_no (.callNode (some (.vStr name)) (.vStr "f") .nil
        (.pymap (.cons "key_size" (.vInt 1024) .nil))) = []
  ∧ ∃ f, node_Call path line_no (.callNode (some (.vStr name)) (.vStr "f")
        (.cons (.vInt 1024) .nil) (.pymap .nil)) = [f]
      ∧ extraLookup f "key_type" = some (.s "rsa")
      ∧ extraLookup f "key_size" = some (.i 1024)
      ∧ f.score = some 100 := by
  fin_cases hmem <;>
    first
      | exact absurd hrsa (by decide)
      | exact ⟨rfl, ⟨_, rfl, rfl, rfl, rfl⟩⟩

/-- C1 witness: the rsa catalogue entry `Crypto.PublicKey.RSA.generate`
with a keyword key_size=1024 call yielding nothing and a positional 1024
call yielding the single elevated Finding. -/
theorem crypto_rsa_key_size_findings_witness :
    (("Crypto.PublicKey.RSA.generate", (⟨"rsa", "crypto"⟩ : KeyTarget)) ∈ CRYPTO_GEN_KEYS)
  ∧ (node_Call "pkg.py" 7 (.callNode (some (.vStr "Crypto.PublicKey.RSA.generate")) (.vStr "f") .nil
        (.pymap (.cons "key_size" (.vInt 1024) .nil))) = []
     ∧ ∃ f, node_Call "pkg.py" 7 (.callNode (some (.vStr "Crypto.PublicKey.RSA.generate")) (.vStr "f")
          (.cons (.vInt 1024) .nil) (.pymap .nil)) = [f]
        ∧ extraLookup f "key_type" = some (.s "rsa")
        ∧ extraLookup f "key_size" = some (.i 1024)
        ∧ f.score = some 100) :=
  ⟨by decide, crypto_rsa_key_size_findings "Crypto.PublicKey.RSA.generate" ⟨"rsa", "crypto"⟩
    "pkg.py" 7 (by decide) rfl⟩

end Aura
